import Mathlib

/-!
Verification of the Solar-Heat-Controller core against its specification.

The embedding follows the two source files:

* `src/firmware/CloudStorage.h` — remote configuration refresh (`update`),
  connection setup (`init`) and the wraparound telemetry log (`log`).
* `src/unnamed/part_000` (`Thermistor.h`) — ADC-sample-to-temperature
  conversion (`init` / `toReading`).

Modelling conventions:

* The external Firebase client is the environment.  A whole-config fetch is an
  `Option RemoteObj` (`none` = `Firebase.failed()` after `Firebase.get`); each
  per-field read from the fetched object is an `Option` field of `RemoteObj`.
  The outcome of the i-th `Firebase.set` attempt inside `log` is an oracle
  `Nat → Bool`.
* Observable side effects (LED signalling, Firebase calls, `delay`) are
  recorded in an event trace `List Ev`.
* `double` arithmetic is modelled exactly over `ℚ`; the C library `log`
  (natural logarithm) is abstracted as an arbitrary parameter `ln : ℚ → ℚ`.
* `uint32_t` arithmetic is `Nat` with explicit `% 4294967296`; C++ `int` is
  `Int` (its values written by `Firebase.getInt` lie in `[-2^31, 2^31)`).
  The C++ expression `x % 0` on integers is undefined behaviour and is
  modelled as `none`.
-/

/-- Observable events: LED signalling, Firebase traffic and delays. -/
inductive Ev where
  | blinkLed : Nat → Ev
  | setLed : Bool → Ev
  | fbGet : String → Ev
  | fbSet : String → Ev
  | fbBegin : String → Ev
  | delayMs : Nat → Ev
  deriving DecidableEq, Repr

/-- The twelve remotely-configurable fields of `CloudStorage`
(`float` as `ℚ`, `int` as `Int`, `String` as `String`), in declaration order
of the source. -/
structure Config where
  series_resistor : ℚ
  resistance_at_0 : ℚ
  temperature_at_0 : ℚ
  b_coefficient : ℚ
  polling_milliseconds : Int
  max_entries : Int
  ntp_server : String
  gmt_offset : Int
  min_t_on : ℚ
  delta_t_on : ℚ
  delta_t_off : ℚ
  oversample : Int
  deriving DecidableEq, Repr

/-- The hardcoded defaults of the field initializers in `CloudStorage.h`. -/
def defaultConfig : Config :=
  { series_resistor := 8170
    resistance_at_0 := 9555.55
    temperature_at_0 := 25
    b_coefficient := 3380
    polling_milliseconds := 5 * 1000
    max_entries := 0
    ntp_server := "pool.ntp.org"
    gmt_offset := 0
    min_t_on := 10
    delta_t_on := 10
    delta_t_off := 1
    oversample := 16 }

/-- The mutable state of a `CloudStorage` object: the cached configuration and
the log cursor `_current_entry : uint32_t`. -/
structure CloudStorage where
  config : Config
  current_entry : Nat
  deriving DecidableEq, Repr

/-- A freshly constructed `CloudStorage`: default config, `_current_entry = 0`. -/
def initialStorage : CloudStorage := ⟨defaultConfig, 0⟩

/-- A state whose `maxEntries` field has been refreshed to 2 (used to
instantiate theorems with preconditions at a concrete input). -/
def testStorage2 : CloudStorage := ⟨{ defaultConfig with max_entries := 2 }, 0⟩

/-- The remote `config` object as fetched by `Firebase.get("config")`: each of
the twelve sub-keys is present (`some`) or missing/unreadable (`none`). -/
structure RemoteObj where
  seriesResistor : Option ℚ
  temperatureAt0 : Option ℚ
  resistanceAt0 : Option ℚ
  bCoefficient : Option ℚ
  pollingMilliseconds : Option Int
  maxEntries : Option Int
  ntpServer : Option String
  gmtOffset : Option Int
  deltaTOn : Option ℚ
  deltaTOff : Option ℚ
  minTOn : Option ℚ
  oversample : Option Int
  deriving DecidableEq, Repr

/-- `CloudStorage::maybeUpdate<T>`: read the value at a path from the fetched
object; on failure return `false` leaving `value` unmodified, otherwise
overwrite `value` and return `true`.  Returns (outcome, new value). -/
def maybeUpdate {α : Type} (read : Option α) (value : α) : Bool × α :=
  match read with
  | none => (false, value)
  | some v => (true, v)

/-- Result of `CloudStorage::update`: the returned boolean, the state after the
call and the trace of observable events. -/
structure UpdateResult where
  ok : Bool
  state : CloudStorage
  trace : List Ev
  deriving DecidableEq, Repr

/-- `CloudStorage::update(Device&)`.  Blinks the LED (rate 25), fetches the
whole `config` object; on fetch failure returns `false` immediately (note: the
source returns without executing `device.setLed(true)`).  Otherwise runs the
twelve `maybeUpdate*` calls in source order, accumulating `success &= …`
(the C++ `&=` on `bool` does not short-circuit, so every field is attempted),
stops the LED blinking, and returns the accumulated flag. -/
def CloudStorage.update (s : CloudStorage) (fetch : Option RemoteObj) : UpdateResult :=
  match fetch with
  | none => ⟨false, s, [Ev.blinkLed 25, Ev.fbGet "config"]⟩
  | some obj =>
      let r1 := maybeUpdate obj.seriesResistor s.config.series_resistor
      let r2 := maybeUpdate obj.temperatureAt0 s.config.temperature_at_0
      let r3 := maybeUpdate obj.resistanceAt0 s.config.resistance_at_0
      let r4 := maybeUpdate obj.bCoefficient s.config.b_coefficient
      let r5 := maybeUpdate obj.pollingMilliseconds s.config.polling_milliseconds
      let r6 := maybeUpdate obj.maxEntries s.config.max_entries
      let r7 := maybeUpdate obj.ntpServer s.config.ntp_server
      let r8 := maybeUpdate obj.gmtOffset s.config.gmt_offset
      let r9 := maybeUpdate obj.deltaTOn s.config.delta_t_on
      let r10 := maybeUpdate obj.deltaTOff s.config.delta_t_off
      let r11 := maybeUpdate obj.minTOn s.config.min_t_on
      let r12 := maybeUpdate obj.oversample s.config.oversample
      let success := true && r1.1 && r2.1 && r3.1 && r4.1 && r5.1 && r6.1
          && r7.1 && r8.1 && r9.1 && r10.1 && r11.1 && r12.1
      ⟨success,
        { s with config :=
          { series_resistor := r1.2
            temperature_at_0 := r2.2
            resistance_at_0 := r3.2
            b_coefficient := r4.2
            polling_milliseconds := r5.2
            max_entries := r6.2
            ntp_server := r7.2
            gmt_offset := r8.2
            delta_t_on := r9.2
            delta_t_off := r10.2
            min_t_on := r11.2
            oversample := r12.2 } },
        [Ev.blinkLed 25, Ev.fbGet "config", Ev.setLed true]⟩

/-- `CloudStorage::init(host, auth)`: declared `bool`, prints a diagnostic,
calls `Firebase.begin` exactly once (no retry), checks `failed()` — but
contains no `return` statement on any path, so the returned boolean is
undefined; the returned value is modelled as `none`. -/
def CloudStorage.init (host _auth : String) (_beginOk : Bool) : Option Bool × List Ev :=
  (none, [Ev.fbBegin host])

/-- Conversion of a C++ `int` operand to `unsigned int` (32-bit), as performed
by the usual arithmetic conversions in `uint32_t % int`. -/
def toUInt32Nat (n : Int) : Nat := (n % 4294967296).toNat

/-- The cursor-advance expression `(_current_entry + 1) % _max_entries`:
`uint32_t` increment (wrapping at `2^32`), then C++ `%` with `_max_entries`
converted to unsigned.  `% 0` is division by zero — undefined behaviour —
modelled as `none`.  The source contains no guard against `_max_entries = 0`. -/
def nextEntry (c : Nat) (m : Int) : Option Nat :=
  let mu := toUInt32Nat m
  if mu = 0 then none else some (((c + 1) % 4294967296) % mu)

/-- The Firebase ref of the slot written by `log`:
`_log_ref + "/" + _current_entry`. -/
def slotRefOf (s : CloudStorage) : String := "log" ++ "/" ++ toString s.current_entry

/-- The events of one write attempt inside `log`: blink the LED (rate 19),
issue `Firebase.set` on the slot ref, stop blinking. -/
def attemptEvents (ref : String) : List Ev :=
  [Ev.blinkLed 19, Ev.fbSet ref, Ev.setLed true]

/-- The retry loop `for (int i = 0; i < 3; i++)` of `CloudStorage::log`:
attempt `i` succeeds iff `o i`; on success the loop breaks, otherwise a 100 ms
delay is issued (also after the final failed attempt) and the loop continues
while fuel remains.  Returns (any attempt succeeded, events). -/
def logAttempts (ref : String) (o : Nat → Bool) : Nat → Nat → Bool × List Ev
  | _, 0 => (false, [])
  | i, n + 1 =>
      if o i then (true, attemptEvents ref)
      else
        let rest := logAttempts ref o (i + 1) n
        (rest.1, attemptEvents ref ++ Ev.delayMs 100 :: rest.2)

/-- Result of `CloudStorage::log` (a `void` function: no success/failure value
is returned to the caller).  `state = none` marks that the undefined
`% 0` was evaluated. -/
structure LogResult where
  state : Option CloudStorage
  trace : List Ev
  deriving DecidableEq, Repr

/-- `CloudStorage::log(Device&, time_t, double, double, bool)`: computes the
slot ref from the current cursor, makes up to three write attempts, and on the
first success advances `_current_entry = (_current_entry + 1) % _max_entries`;
on exhaustion the state is unchanged and nothing is reported to the caller. -/
def CloudStorage.log (s : CloudStorage) (o : Nat → Bool) : LogResult :=
  let ref := slotRefOf s
  let r := logAttempts ref o 0 3
  if r.1 then
    match nextEntry s.current_entry s.config.max_entries with
    | none => ⟨none, r.2⟩
    | some c => ⟨some { s with current_entry := c }, r.2⟩
  else
    ⟨some s, r.2⟩

/-- Iterate `log` with an always-succeeding store, starting from `s`. -/
def logIterAll (s : CloudStorage) : Nat → Option CloudStorage
  | 0 => some s
  | k + 1 =>
      match logIterAll s k with
      | none => none
      | some t => (t.log (fun _ => true)).state

/-- Number of `Firebase.set` events in a trace. -/
def isSetEv : Ev → Bool
  | Ev.fbSet _ => true
  | _ => false

/-- Number of write attempts recorded in a trace. -/
def attemptCount (tr : List Ev) : Nat := (tr.filter isSetEv).length

/-- `ThermistorReading` — the immutable triple returned by `toReading`. -/
structure ThermistorReading where
  adc : ℚ
  resistance : ℚ
  celsius : ℚ
  deriving DecidableEq, Repr

/-- The calibration constants of `Thermistor` (`_rs`, `_r0`, `_t0`, `_b`). -/
structure Thermistor where
  rs : ℚ
  r0 : ℚ
  t0 : ℚ
  b : ℚ
  deriving DecidableEq, Repr

/-- `Thermistor::_k = 273.15` — 0 °C in Kelvin. -/
def kelvinOffset : ℚ := 273.15

/-- `Thermistor::init(rs, r0, t0, b)`: stores the constants, converting the
reference temperature `t0` from Celsius to Kelvin via `+ _k`. -/
def Thermistor.init (rs r0 t0 b : ℚ) : Thermistor :=
  ⟨rs, r0, t0 + kelvinOffset, b⟩

/-- `Thermistor::adcToResistance(adc)`:
`_rs / ((1023.0 / adc) - 1.0)` (the source literals `1023.0` and `1.0`
denote the same rationals as `1023` and `1`). -/
def Thermistor.adcToResistance (th : Thermistor) (adc : ℚ) : ℚ :=
  th.rs / ((1023 / adc) - 1)

/-- `Thermistor::resistanceToCelsius(r)`, step for step as in the source:
`c = r/_r0; c = log(c); c /= _b; c += 1.0/_t0; c = 1.0/c; c -= _k`.
The library natural logarithm is the abstract parameter `ln`. -/
def Thermistor.resistanceToCelsius (th : Thermistor) (ln : ℚ → ℚ) (r : ℚ) : ℚ :=
  let c1 := r / th.r0
  let c2 := ln c1
  let c3 := c2 / th.b
  let c4 := c3 + 1 / th.t0
  let c5 := 1 / c4
  c5 - kelvinOffset

/-- `Thermistor::toReading(adc)`: resistance, then temperature, returned as a
`ThermistorReading`. -/
def Thermistor.toReading (th : Thermistor) (ln : ℚ → ℚ) (adc : ℚ) : ThermistorReading :=
  let resistance := th.adcToResistance adc
  let celsius := th.resistanceToCelsius ln resistance
  ⟨adc, resistance, celsius⟩

/-- Modelled from the spec's words (for the refinement claim about the
conversion pipeline): `R = seriesResistance / ((fullScale / adcSample) − 1)`
with `fullScale = 1023`, then `1/T = 1/T0 + (1/B)·ln(R/R0)` with
`T0 = referenceTemperatureCelsius + 273.15`, `T_celsius = T − 273.15`, and the
returned triple `(adcSample, R, T_celsius)`. -/
def specReading (rs r0 t0C b : ℚ) (ln : ℚ → ℚ) (adc : ℚ) : ThermistorReading :=
  let R := rs / ((1023 / adc) - 1)
  let T0 := t0C + 273.15
  let T := 1 / (1 / T0 + (1 / b) * ln (R / r0))
  ⟨adc, R, T - 273.15⟩

/-! ### Helper lemmas about `update` -/

theorem maybeUpdate_eq {α : Type} (r : Option α) (v : α) :
    maybeUpdate r v = (r.isSome, r.getD v) := by
  cases r <;> rfl

/-- The boolean returned by `update` on a successful fetch is the conjunction
of the twelve per-field outcomes. -/
theorem update_some_ok (s : CloudStorage) (obj : RemoteObj) :
    (s.update (some obj)).ok =
      (obj.seriesResistor.isSome && obj.temperatureAt0.isSome &&
       obj.resistanceAt0.isSome && obj.bCoefficient.isSome &&
       obj.pollingMilliseconds.isSome && obj.maxEntries.isSome &&
       obj.ntpServer.isSome && obj.gmtOffset.isSome && obj.deltaTOn.isSome &&
       obj.deltaTOff.isSome && obj.minTOn.isSome && obj.oversample.isSome) := by
  simp [CloudStorage.update, maybeUpdate_eq]

/-- The configuration produced by `update` on a successful fetch: every field
present in the fetched object is overwritten, every missing field keeps its
prior value. -/
theorem update_some_config (s : CloudStorage) (obj : RemoteObj) :
    (s.update (some obj)).state.config =
      { series_resistor := obj.seriesResistor.getD s.config.series_resistor
        temperature_at_0 := obj.temperatureAt0.getD s.config.temperature_at_0
        resistance_at_0 := obj.resistanceAt0.getD s.config.resistance_at_0
        b_coefficient := obj.bCoefficient.getD s.config.b_coefficient
        polling_milliseconds :=
          obj.pollingMilliseconds.getD s.config.polling_milliseconds
        max_entries := obj.maxEntries.getD s.config.max_entries
        ntp_server := obj.ntpServer.getD s.config.ntp_server
        gmt_offset := obj.gmtOffset.getD s.config.gmt_offset
        min_t_on := obj.minTOn.getD s.config.min_t_on
        delta_t_on := obj.deltaTOn.getD s.config.delta_t_on
        delta_t_off := obj.deltaTOff.getD s.config.delta_t_off
        oversample := obj.oversample.getD s.config.oversample } := by
  simp [CloudStorage.update, maybeUpdate_eq]

theorem update_none_eq (s : CloudStorage) :
    s.update none = ⟨false, s, [Ev.blinkLed 25, Ev.fbGet "config"]⟩ := rfl

/-! ### Helper lemmas about `log` -/

theorem toUInt32Nat_coe (m : Nat) (h : m < 4294967296) :
    toUInt32Nat (m : Int) = m := by
  unfold toUInt32Nat
  rw [Int.emod_eq_of_lt (Int.natCast_nonneg m) (by exact_mod_cast h)]
  exact Int.toNat_natCast m

/-- Under the int-representable precondition `1 ≤ m < 2^31`, the cursor-advance
expression is defined and equals `(c + 1) % m` whenever `c < m`. -/
theorem nextEntry_eq (c : Nat) (m : Nat) (h1 : 1 ≤ m) (h2 : m < 2147483648)
    (hc : c < m) : nextEntry c (m : Int) = some ((c + 1) % m) := by
  have hcoe : toUInt32Nat (m : Int) = m := toUInt32Nat_coe m (by omega)
  simp only [nextEntry, hcoe]
  rw [if_neg (by omega), Nat.mod_eq_of_lt (show c + 1 < 4294967296 by omega)]

/-- A `log` call whose first attempt succeeds, from a state whose cursor is in
range, advances the cursor by `(c + 1) % m`. -/
theorem log_allTrue_step (t : CloudStorage) (m : Nat) (h1 : 1 ≤ m)
    (h2 : m < 2147483648) (hm : t.config.max_entries = (m : Int))
    (hc : t.current_entry < m) :
    (t.log (fun _ => true)).state =
      some { t with current_entry := (t.current_entry + 1) % m } := by
  have hne := nextEntry_eq t.current_entry m h1 h2 hc
  simp [CloudStorage.log, logAttempts, hm, hne]

/-- The retry loop succeeds iff one of the three attempts succeeds. -/
theorem logAttempts_ok (ref : String) (o : Nat → Bool) :
    (logAttempts ref o 0 3).1 = (o 0 || o 1 || o 2) := by
  cases h0 : o 0 <;> cases h1 : o 1 <;> cases h2 : o 2 <;>
    simp [logAttempts, h0, h1, h2]

/-- The cursor-advance expression is defined (no division by zero) whenever
`_max_entries` holds an `int` value that is at least 1. -/
theorem nextEntry_isSome (c : Nat) (m : Int) (hge : 1 ≤ m)
    (hle : m ≤ 2147483647) : (nextEntry c m).isSome = true := by
  simp only [nextEntry, toUInt32Nat]
  have hmod : m % 4294967296 = m := Int.emod_eq_of_lt (by omega) (by omega)
  rw [hmod, if_neg (by omega)]
  rfl

/-- A `log` call in which some attempt succeeds, from a state whose cursor is
in range, advances the cursor by `(c + 1) % m`. -/
theorem log_success_step (t : CloudStorage) (o : Nat → Bool) (m : Nat)
    (h1 : 1 ≤ m) (h2 : m < 2147483648) (hm : t.config.max_entries = (m : Int))
    (hc : t.current_entry < m) (hs : (o 0 || o 1 || o 2) = true) :
    (t.log o).state =
      some { t with current_entry := (t.current_entry + 1) % m } := by
  have hne := nextEntry_eq t.current_entry m h1 h2 hc
  have hok := logAttempts_ok (slotRefOf t) o
  unfold CloudStorage.log
  simp [hok, hs, hm, hne]

/-- A `log` call in which every attempt fails leaves the state unchanged. -/
theorem log_allFalse_step (t : CloudStorage) (o : Nat → Bool)
    (h0 : o 0 = false) (h1 : o 1 = false) (h2 : o 2 = false) :
    (t.log o).state = some t := by
  unfold CloudStorage.log
  simp [logAttempts, h0, h1, h2]

/-- Iterating `log` with an always-succeeding store from a cursor-0 state with
`_max_entries = m` puts the cursor at `k % m` after `k` calls. -/
theorem logIterAll_eq (s : CloudStorage) (m : Nat) (h1 : 1 ≤ m)
    (h2 : m < 2147483648) (hm : s.config.max_entries = (m : Int))
    (h0 : s.current_entry = 0) :
    ∀ k, logIterAll s k = some { s with current_entry := k % m } := by
  intro k
  induction k with
  | zero =>
      have hs : ({ s with current_entry := 0 % m } : CloudStorage) = s := by
        rw [Nat.zero_mod, ← h0]
      rw [logIterAll, hs]
  | succ k ih =>
      have hstep := log_allTrue_step { s with current_entry := k % m } m h1 h2 hm
        (Nat.mod_lt _ (by omega))
      rw [logIterAll, ih]
      show (({ s with current_entry := k % m } : CloudStorage).log
        (fun _ => true)).state = _
      rw [hstep]
      simp [Nat.mod_add_mod]

/-! ### Claim theorems -/

/-- Claim C1: for every `update` call in which the whole-config fetch
succeeds, the returned boolean equals the logical AND of the twelve per-field
read outcomes, and each of the twelve fields is overwritten with the fetched
value when present and kept at its prior value when missing — so a
fully-populated object yields `true` with all twelve overwritten, an object
missing exactly one field yields `false` with the other eleven updated, and a
later field is still attempted and updated after an earlier field failed. -/
theorem update_result_is_and_of_field_outcomes (s : CloudStorage)
    (obj : RemoteObj) :
    (s.update (some obj)).ok =
      (obj.seriesResistor.isSome && obj.temperatureAt0.isSome &&
       obj.resistanceAt0.isSome && obj.bCoefficient.isSome &&
       obj.pollingMilliseconds.isSome && obj.maxEntries.isSome &&
       obj.ntpServer.isSome && obj.gmtOffset.isSome && obj.deltaTOn.isSome &&
       obj.deltaTOff.isSome && obj.minTOn.isSome && obj.oversample.isSome) ∧
    (s.update (some obj)).state.config =
      { series_resistor := obj.seriesResistor.getD s.config.series_resistor
        temperature_at_0 := obj.temperatureAt0.getD s.config.temperature_at_0
        resistance_at_0 := obj.resistanceAt0.getD s.config.resistance_at_0
        b_coefficient := obj.bCoefficient.getD s.config.b_coefficient
        polling_milliseconds :=
          obj.pollingMilliseconds.getD s.config.polling_milliseconds
        max_entries := obj.maxEntries.getD s.config.max_entries
        ntp_server := obj.ntpServer.getD s.config.ntp_server
        gmt_offset := obj.gmtOffset.getD s.config.gmt_offset
        min_t_on := obj.minTOn.getD s.config.min_t_on
        delta_t_on := obj.deltaTOn.getD s.config.delta_t_on
        delta_t_off := obj.deltaTOff.getD s.config.delta_t_off
        oversample := obj.oversample.getD s.config.oversample } :=
  ⟨update_some_ok s obj, update_some_config s obj⟩

/-- Claim C4: `update` is atomic on a whole-config read failure — it returns
`false` with the entire state (all twelve fields) unchanged — and on a
per-field read failure that field keeps its prior value (`getD` of the prior
value) while the field's failure makes the overall boolean `false` (the
returned flag is the AND of the twelve per-field outcomes). -/
theorem update_failure_atomicity (s : CloudStorage) (obj : RemoteObj) :
    (s.update none).ok = false ∧
    (s.update none).state = s ∧
    (s.update (some obj)).state.config.series_resistor =
      obj.seriesResistor.getD s.config.series_resistor ∧
    (s.update (some obj)).state.config.temperature_at_0 =
      obj.temperatureAt0.getD s.config.temperature_at_0 ∧
    (s.update (some obj)).state.config.resistance_at_0 =
      obj.resistanceAt0.getD s.config.resistance_at_0 ∧
    (s.update (some obj)).state.config.b_coefficient =
      obj.bCoefficient.getD s.config.b_coefficient ∧
    (s.update (some obj)).state.config.polling_milliseconds =
      obj.pollingMilliseconds.getD s.config.polling_milliseconds ∧
    (s.update (some obj)).state.config.max_entries =
      obj.maxEntries.getD s.config.max_entries ∧
    (s.update (some obj)).state.config.ntp_server =
      obj.ntpServer.getD s.config.ntp_server ∧
    (s.update (some obj)).state.config.gmt_offset =
      obj.gmtOffset.getD s.config.gmt_offset ∧
    (s.update (some obj)).state.config.delta_t_on =
      obj.deltaTOn.getD s.config.delta_t_on ∧
    (s.update (some obj)).state.config.delta_t_off =
      obj.deltaTOff.getD s.config.delta_t_off ∧
    (s.update (some obj)).state.config.min_t_on =
      obj.minTOn.getD s.config.min_t_on ∧
    (s.update (some obj)).state.config.oversample =
      obj.oversample.getD s.config.oversample ∧
    (s.update (some obj)).ok =
      (obj.seriesResistor.isSome && obj.temperatureAt0.isSome &&
       obj.resistanceAt0.isSome && obj.bCoefficient.isSome &&
       obj.pollingMilliseconds.isSome && obj.maxEntries.isSome &&
       obj.ntpServer.isSome && obj.gmtOffset.isSome && obj.deltaTOn.isSome &&
       obj.deltaTOff.isSome && obj.minTOn.isSome && obj.oversample.isSome) := by
  have hc := update_some_config s obj
  refine ⟨rfl, rfl, ?_, ?_, ?_, ?_, ?_, ?_, ?_, ?_, ?_, ?_, ?_, ?_,
    update_some_ok s obj⟩ <;> rw [hc]

/-- Claim C7 counterexample: on the path where the whole-config fetch fails,
`update` returns immediately with the board-status still signalling activity —
the trace contains the `blinkLed 25` activity signal but no `setLed true`
return to steady state, refuting "clears board status back to steady state
before returning" for every outcome. -/
theorem update_fetch_fail_leaves_led_blinking :
    Ev.blinkLed 25 ∈ (initialStorage.update none).trace ∧
    (initialStorage.update none).trace.all (fun e => e != Ev.setLed true) =
      true := by
  decide

/-- Claim C7 (amended): every `update` call signals board status as active
(`blinkLed 25`) at the start; when the whole-config fetch succeeds the board
status is cleared back to steady state (`setLed true`) as the last action
before returning, but when the fetch fails the call returns immediately with
the board status left active (no `setLed true` is emitted). -/
theorem update_led_signaling (s : CloudStorage) (obj : RemoteObj) :
    (s.update none).trace.head? = some (Ev.blinkLed 25) ∧
    (s.update (some obj)).trace.head? = some (Ev.blinkLed 25) ∧
    (s.update (some obj)).trace.getLast? = some (Ev.setLed true) ∧
    (s.update none).trace.all (fun e => e != Ev.setLed true) = true :=
  ⟨rfl, rfl, rfl, rfl⟩

/-- Claim C10: `update` and `log` are frame-disjoint — `update` never changes
the log cursor under any fetch outcome, and `log` never changes any
configuration field under any store outcome. -/
theorem update_log_frame_disjoint (s : CloudStorage) (f : Option RemoteObj)
    (o : Nat → Bool) :
    (s.update f).state.current_entry = s.current_entry ∧
    ((s.log o).state.getD s).config = s.config := by
  constructor
  · cases f <;> rfl
  · unfold CloudStorage.log
    cases hr : (logAttempts (slotRefOf s) o 0 3).1 with
    | false => simp [hr]
    | true =>
        cases hn : nextEntry s.current_entry s.config.max_entries with
        | none => simp [hr, hn]
        | some c => simp [hr, hn]

/-- Claim C5: `Thermistor.init` stores the reference temperature in Kelvin as
`referenceTemperatureCelsius + 273.15`, and `toReading` computes the
resistance `R = seriesResistance / ((1023 / adcSample) − 1)`, the temperature
from `1/T = 1/T0 + (1/B)·ln(R/R0)` with `T_celsius = T − 273.15`, and returns
the triple `(adcSample, R, T_celsius)` — i.e. it coincides with `specReading`,
the formula as the spec words it. -/
theorem thermistor_conversion_matches_spec (rs r0 t0C b adc : ℚ)
    (ln : ℚ → ℚ) :
    (Thermistor.init rs r0 t0C b).t0 = t0C + 273.15 ∧
    (Thermistor.init rs r0 t0C b).toReading ln adc =
      specReading rs r0 t0C b ln adc := by
  refine ⟨rfl, ?_⟩
  have hmk : ∀ x y c c' : ℚ, c = c' →
      ThermistorReading.mk x y c = ThermistorReading.mk x y c' := by
    intro x y c c' h
    rw [h]
  exact hmk _ _ _ _ (by
    simp only [Thermistor.init, Thermistor.resistanceToCelsius,
      Thermistor.adcToResistance, specReading, kelvinOffset]
    ring)

/-- Claim C8: for every ADC sample strictly between 0 and full scale 1023 and
a strictly positive series resistance, `toReading` returns a strictly positive
resistance. -/
theorem toReading_resistance_pos (th : Thermistor) (ln : ℚ → ℚ) (adc : ℚ)
    (h0 : 0 < adc) (h1 : adc < 1023) (hrs : 0 < th.rs) :
    0 < (th.toReading ln adc).resistance := by
  have hd : (0 : ℚ) < 1023 / adc - 1 := by
    have hq : (1 : ℚ) < 1023 / adc := (one_lt_div h0).mpr h1
    linarith
  have hres : (th.toReading ln adc).resistance = th.rs / (1023 / adc - 1) := rfl
  rw [hres]
  exact div_pos hrs hd

/-- Claim C8 witness: the positivity theorem applied at the default
calibration constants and the concrete sample `adc = 1`. -/
theorem toReading_resistance_pos_witness :
    (0 : ℚ) < 1 ∧ (1 : ℚ) < 1023 ∧
    0 < (Thermistor.init 8170 9555.55 25 3380).rs ∧
    0 < ((Thermistor.init 8170 9555.55 25 3380).toReading
      (fun _ => 0) 1).resistance :=
  ⟨by norm_num, by norm_num, by norm_num [Thermistor.init],
    toReading_resistance_pos (Thermistor.init 8170 9555.55 25 3380)
      (fun _ => 0) 1 (by norm_num) (by norm_num)
      (by norm_num [Thermistor.init])⟩

/-- Claim C9: `CloudStorage.init` makes exactly one `Firebase.begin`
connection attempt (its trace is the single `fbBegin` event — it never
retries), but — being declared `bool` with no `return` statement on any
path — it yields no defined boolean result (modelled `none`), so a failed
attempt is *not* reported to the caller through the return value. -/
theorem init_single_attempt_no_return (host auth : String) (beginOk : Bool) :
    (CloudStorage.init host auth beginOk).2 = [Ev.fbBegin host] ∧
    (CloudStorage.init host auth beginOk).1 = none :=
  ⟨rfl, rfl⟩

/-- Claim C2: the log cursor is initialized to 0 and, under the precondition
`maxEntries ≥ 1` (as an `int`, hence `< 2^31`), a `log` call advances the
cursor by `(current + 1) mod maxEntries` exactly when some write attempt
succeeds and leaves it unchanged when every attempt fails; consequently,
starting from cursor 0 and an always-succeeding store, the k-th call
(for `k < maxEntries`) leaves the cursor — i.e. the slot the next call
writes — at `k`, visiting every slot in `[0, maxEntries)` exactly once, the
`maxEntries`-th call returns the cursor to slot 0 (so the
`(maxEntries + 1)`-th call writes slot 0 again), and the cursor always stays
in `[0, maxEntries)`. -/
theorem log_cursor_wraparound (s : CloudStorage) (m : Nat) (h1 : 1 ≤ m)
    (h2 : m < 2147483648) (hm : s.config.max_entries = (m : Int))
    (h0 : s.current_entry = 0) :
    initialStorage.current_entry = 0 ∧
    (∀ t : CloudStorage, ∀ o : Nat → Bool,
        t.config.max_entries = (m : Int) → t.current_entry < m →
        (o 0 || o 1 || o 2) = true →
        (t.log o).state =
          some { t with current_entry := (t.current_entry + 1) % m }) ∧
    (∀ t : CloudStorage, ∀ o : Nat → Bool,
        o 0 = false → o 1 = false → o 2 = false → (t.log o).state = some t) ∧
    (∀ k, k < m →
        (logIterAll s k).map CloudStorage.current_entry = some k) ∧
    (logIterAll s m).map CloudStorage.current_entry = some 0 ∧
    (∀ k, (logIterAll s k).map CloudStorage.current_entry = some (k % m)) ∧
    (∀ t : CloudStorage, ∀ o : Nat → Bool, ∀ u : CloudStorage,
        t.config.max_entries = (m : Int) → t.current_entry < m →
        (t.log o).state = some u → u.current_entry < m) := by
  have hiter := logIterAll_eq s m h1 h2 hm h0
  refine ⟨rfl, ?_, ?_, ?_, ?_, ?_, ?_⟩
  · intro t o hmt hct hs
    exact log_success_step t o m h1 h2 hmt hct hs
  · intro t o ho0 ho1 ho2
    exact log_allFalse_step t o ho0 ho1 ho2
  · intro k hk
    rw [hiter k]
    simp [Nat.mod_eq_of_lt hk]
  · rw [hiter m]
    simp [Nat.mod_self]
  · intro k
    rw [hiter k]
    rfl
  · intro t o u hmt hct hlog
    cases hcase : (o 0 || o 1 || o 2) with
    | true =>
        rw [log_success_step t o m h1 h2 hmt hct hcase] at hlog
        injection hlog with h
        subst h
        exact Nat.mod_lt _ (by omega)
    | false =>
        simp only [Bool.or_eq_false_iff] at hcase
        rw [log_allFalse_step t o hcase.1.1 hcase.1.2 hcase.2] at hlog
        injection hlog with h
        subst h
        exact hct

/-- Claim C2 witness: the wraparound theorem applied at `maxEntries = 2` and
the concrete state `testStorage2`: two all-success calls return the cursor to
slot 0. -/
theorem log_cursor_wraparound_witness :
    (1 ≤ 2 ∧ 2 < 2147483648 ∧
      testStorage2.config.max_entries = ((2 : Nat) : Int) ∧
      testStorage2.current_entry = 0) ∧
    (logIterAll testStorage2 2).map CloudStorage.current_entry = some 0 :=
  ⟨⟨by decide, by decide, rfl, rfl⟩,
    (log_cursor_wraparound testStorage2 2 (by decide) (by decide) rfl
      rfl).2.2.2.2.1⟩

/-- Claim C3: `log` issues at most 3 write attempts, all to the same slot ref,
terminating on the first successful attempt (the trace per outcome class is
given exactly: a 100 ms delay follows each failed attempt, in particular each
failed attempt that precedes another attempt); when every attempt fails,
exactly 3 write attempts are issued and the state — in particular the
cursor — is unchanged, the `void` return carrying no failure indication (the
drop is visible only in the trace). -/
theorem log_retry_policy (s : CloudStorage) (o : Nat → Bool) :
    attemptCount (s.log o).trace ≤ 3 ∧
    (∀ p, Ev.fbSet p ∈ (s.log o).trace → p = slotRefOf s) ∧
    (o 0 = true → (s.log o).trace = attemptEvents (slotRefOf s)) ∧
    (o 0 = false → o 1 = true →
      (s.log o).trace =
        attemptEvents (slotRefOf s) ++
          Ev.delayMs 100 :: attemptEvents (slotRefOf s)) ∧
    (o 0 = false → o 1 = false → o 2 = true →
      (s.log o).trace =
        attemptEvents (slotRefOf s) ++
          Ev.delayMs 100 ::
            (attemptEvents (slotRefOf s) ++
              Ev.delayMs 100 :: attemptEvents (slotRefOf s))) ∧
    (o 0 = false → o 1 = false → o 2 = false →
      (s.log o).trace =
        attemptEvents (slotRefOf s) ++
          Ev.delayMs 100 ::
            (attemptEvents (slotRefOf s) ++
              Ev.delayMs 100 ::
                (attemptEvents (slotRefOf s) ++ [Ev.delayMs 100])) ∧
      attemptCount (s.log o).trace = 3 ∧
      (s.log o).state = some s) := by
  have htr : (s.log o).trace = (logAttempts (slotRefOf s) o 0 3).2 := by
    unfold CloudStorage.log
    cases hr : (logAttempts (slotRefOf s) o 0 3).1 with
    | false => simp [hr]
    | true =>
        cases hn : nextEntry s.current_entry s.config.max_entries <;>
          simp [hr, hn]
  refine ⟨?_, ?_, ?_, ?_, ?_, ?_⟩
  · rw [htr]
    cases h0 : o 0 <;> cases h1 : o 1 <;> cases h2 : o 2 <;>
      simp [logAttempts, attemptEvents, attemptCount, isSetEv, h0, h1, h2]
  · intro p hp
    rw [htr] at hp
    cases h0 : o 0 <;> cases h1 : o 1 <;> cases h2 : o 2 <;>
      simp [logAttempts, attemptEvents, h0, h1, h2] at hp <;> tauto
  · intro h0
    rw [htr]
    simp [logAttempts, h0]
  · intro h0 h1
    rw [htr]
    simp [logAttempts, h0, h1]
  · intro h0 h1 h2
    rw [htr]
    simp [logAttempts, h0, h1, h2]
  · intro h0 h1 h2
    refine ⟨?_, ?_, log_allFalse_step s o h0 h1 h2⟩
    · rw [htr]
      simp [logAttempts, h0, h1, h2]
    · rw [htr]
      simp [logAttempts, attemptEvents, attemptCount, isSetEv, h0, h1, h2]

/-- Claim C3 witness: the retry-policy theorem applied at the initial state
and an oracle that fails every attempt: exactly 3 attempts are issued and the
state is unchanged. -/
theorem log_retry_policy_witness :
    ((fun _ : Nat => false) 0 = false ∧ (fun _ : Nat => false) 1 = false ∧
      (fun _ : Nat => false) 2 = false) ∧
    attemptCount (initialStorage.log (fun _ => false)).trace = 3 ∧
    (initialStorage.log (fun _ => false)).state = some initialStorage :=
  ⟨⟨rfl, rfl, rfl⟩,
    ((log_retry_policy initialStorage (fun _ => false)).2.2.2.2.2 rfl rfl
      rfl).2.1,
    ((log_retry_policy initialStorage (fun _ => false)).2.2.2.2.2 rfl rfl
      rfl).2.2⟩

/-- Claim C6: with the hardcoded default `maxEntries = 0` (no successful
refresh of that field), a `log` call whose write succeeds evaluates
`(cursor + 1) % 0` — division by zero, undefined behaviour (state `none` in
the model); the code has no guard, and the modulo is defined for every store
outcome exactly under the precondition that `_max_entries` holds an `int`
value `≥ 1`. -/
theorem log_maxEntries_zero_unsafe :
    initialStorage.config.max_entries = 0 ∧
    (initialStorage.log (fun _ => true)).state = none ∧
    (∀ s : CloudStorage, ∀ o : Nat → Bool,
        1 ≤ s.config.max_entries → s.config.max_entries ≤ 2147483647 →
        (s.log o).state ≠ none) := by
  refine ⟨rfl, rfl, ?_⟩
  intro s o hge hle
  unfold CloudStorage.log
  cases hr : (logAttempts (slotRefOf s) o 0 3).1 with
  | false => simp [hr]
  | true =>
      have hs := nextEntry_isSome s.current_entry s.config.max_entries hge hle
      cases hn : nextEntry s.current_entry s.config.max_entries with
      | none => rw [hn] at hs; simp at hs
      | some c => simp [hr, hn]

/-- Claim C6 witness: the safety half applied at the concrete refreshed state
`testStorage2` (`maxEntries = 2`) with an always-succeeding store. -/
theorem log_maxEntries_zero_unsafe_witness :
    (1 ≤ testStorage2.config.max_entries ∧
      testStorage2.config.max_entries ≤ 2147483647) ∧
    (testStorage2.log (fun _ => true)).state ≠ none :=
  ⟨⟨by decide, by decide⟩,
    log_maxEntries_zero_unsafe.2.2 testStorage2 (fun _ => true) (by decide)
      (by decide)⟩
